import Mathlib

/-!
# Verification of the `cli-oauth` OAuth 2.0 authorization-code flow core

Shallow embedding of the TypeScript sources of the `cli-oauth` repository
(`packages/cli/src/openid-discovery.ts`, `packages/cli/src/auth-storage.ts`,
and the OAuth flow module `oauth.ts` with `startOAuthFlow`, `waitForCallback`,
`generateCodeChallenge`, `exchangeCodeForToken`), together with theorems that
settle the specification's claims about them.

Modelling conventions:
* JavaScript timestamps (`Date.now()`, `cached.timestamp`, `stored_at`) are
  natural numbers counting milliseconds.  The JS comparisons `now - ts <
  CACHE_DURATION` and `now - storedAt > expiresIn` agree with Lean's
  truncated `Nat` subtraction on every input (for `now < ts` JS produces a
  negative difference, which compares exactly like the truncated `0`).
* JS string truthiness (`if (s)` for `s : string | null`) is the predicate
  "present and non-empty", embedded as `truthy : Option String → Bool`.
* Network effects (`fetch`) are embedded by passing the outcome of the single
  possible request as an explicit `FetchResult` argument; the Boolean
  `fetched` field of the result records whether the code reached the
  network call.
* The mutable module-level `configCache` `Map` is explicit state, passed in
  and returned; `Map.get`/`Map.set` become `lookupCache`/`setCache` on an
  association list.
-/

namespace CliOAuth

/-- JS truthiness of a `string | null | undefined` value: present and
non-empty.  (`searchParams.get` returns `null` for an absent parameter and
`""` for one present with an empty value; both are falsy.) -/
def truthy : Option String → Bool
  | none => false
  | some s => !(s == "")

/-! ## Metadata resolver (`packages/cli/src/openid-discovery.ts`) -/

/-- The shape of an OpenID provider configuration document.  The TypeScript
code casts the fetched JSON to `OpenIDConfiguration` without validation, so
at runtime every field may be absent; each field is therefore an `Option`. -/
structure OpenIDConfiguration where
  issuer : Option String
  authorization_endpoint : Option String
  token_endpoint : Option String
  userinfo_endpoint : Option String
  jwks_uri : Option String
  registration_endpoint : Option String
  scopes_supported : Option (List String)
  response_types_supported : Option (List String)
  grant_types_supported : Option (List String)
  code_challenge_methods_supported : Option (List String)
  token_endpoint_auth_methods_supported : Option (List String)
deriving DecidableEq, Repr

/-- `const CACHE_DURATION = 24 * 60 * 60 * 1000; // 24 hours` (milliseconds). -/
def CACHE_DURATION : Nat := 24 * 60 * 60 * 1000

/-- The module-level `configCache : Map<string, {config, timestamp}>`,
as an association list from domain to (config, timestamp). -/
abbrev Cache : Type := List (String × OpenIDConfiguration × Nat)

/-- `configCache.get(domain)`. -/
def lookupCache : Cache → String → Option (OpenIDConfiguration × Nat)
  | [], _ => none
  | (d, v) :: rest, domain => if d = domain then some v else lookupCache rest domain

/-- `configCache.set(domain, { config, timestamp })`: replaces any previous
entry for the domain. -/
def setCache (cache : Cache) (domain : String) (config : OpenIDConfiguration)
    (timestamp : Nat) : Cache :=
  (domain, config, timestamp) :: List.filter (fun e => e.1 ≠ domain) cache

/-- Outcome of the single `fetch(wellKnownUrl)` a discovery call can make:
a transport-level failure (rejected promise), or a response with an `ok`
flag and a body that either parses to a configuration object or not. -/
inductive FetchResult where
  | transportError
  | response (ok : Bool) (body : Option OpenIDConfiguration)
deriving DecidableEq, Repr

/-- The `requiredFields` loop of `discoverOpenIDConfiguration`: each of
`issuer`, `authorization_endpoint`, `token_endpoint`, `userinfo_endpoint`
must be truthy (`if (!config[field]) throw`). -/
def requiredFieldsOk (c : OpenIDConfiguration) : Bool :=
  truthy c.issuer && truthy c.authorization_endpoint &&
  truthy c.token_endpoint && truthy c.userinfo_endpoint

/-- `getDefaultClerkConfiguration(domain)`: the deterministic fallback built
from conventional path suffixes under `https://{domain}/`. -/
def getDefaultClerkConfiguration (domain : String) : OpenIDConfiguration where
  issuer := some ("https://" ++ domain)
  authorization_endpoint := some ("https://" ++ domain ++ "/oauth/authorize")
  token_endpoint := some ("https://" ++ domain ++ "/oauth/token")
  userinfo_endpoint := some ("https://" ++ domain ++ "/oauth/userinfo")
  jwks_uri := some ("https://" ++ domain ++ "/.well-known/jwks.json")
  registration_endpoint := some ("https://" ++ domain ++ "/oauth/register")
  scopes_supported := some ["openid", "profile", "email"]
  response_types_supported := some ["code"]
  grant_types_supported := some ["authorization_code"]
  code_challenge_methods_supported := some ["S256"]
  token_endpoint_auth_methods_supported := some ["client_secret_post", "none"]

/-- Result of one `discoverOpenIDConfiguration` call: the returned
configuration, the cache state after the call, and whether the network
fetch was attempted. -/
structure DiscoveryStep where
  config : OpenIDConfiguration
  cache : Cache
  fetched : Bool

/-- The `try { fetch ... } catch { return getDefaultClerkConfiguration }`
body of `discoverOpenIDConfiguration`, reached when no fresh cache entry
exists.  Every `throw` inside the `try` lands in the `catch`, which returns
the fallback; hence the function is total (never fails outward). -/
def attemptDiscoveryFetch (now : Nat) (cache : Cache) (domain : String)
    (fetch : FetchResult) : DiscoveryStep :=
  match fetch with
  | .transportError => ⟨getDefaultClerkConfiguration domain, cache, true⟩
  | .response ok body =>
    if ok then
      match body with
      | none => ⟨getDefaultClerkConfiguration domain, cache, true⟩
      | some config =>
        if requiredFieldsOk config then
          ⟨config, setCache cache domain config now, true⟩
        else
          ⟨getDefaultClerkConfiguration domain, cache, true⟩
    else
      ⟨getDefaultClerkConfiguration domain, cache, true⟩

/-- `discoverOpenIDConfiguration(domain)`: serve a cache entry younger than
24 hours, otherwise attempt exactly one fetch of the well-known document. -/
def discoverOpenIDConfiguration (now : Nat) (cache : Cache) (domain : String)
    (fetch : FetchResult) : DiscoveryStep :=
  match lookupCache cache domain with
  | some (config, timestamp) =>
    if now - timestamp < CACHE_DURATION then ⟨config, cache, false⟩
    else attemptDiscoveryFetch now cache domain fetch
  | none => attemptDiscoveryFetch now cache domain fetch

/-- A failing fetch in the sense of §4.1: transport failure, non-2xx status,
non-parseable body, or a missing/empty required field. -/
def fetchFailed : FetchResult → Bool
  | .transportError => true
  | .response ok body =>
    if ok then
      match body with
      | none => true
      | some config => !requiredFieldsOk config
    else true

/-- The cached entry for `domain` that is younger than 24 hours, when the
cache holds one. -/
def freshEntry (now : Nat) (cache : Cache) (domain : String) :
    Option OpenIDConfiguration :=
  match lookupCache cache domain with
  | some (config, timestamp) =>
    if now - timestamp < CACHE_DURATION then some config else none
  | none => none

/-- Cache well-formedness: every stored configuration passed the
required-fields validation (the only `configCache.set` site runs after it). -/
def cacheWF (cache : Cache) : Prop :=
  ∀ e ∈ cache, requiredFieldsOk e.2.1 = true

/-! ## Token store (`packages/cli/src/auth-storage.ts`) -/

/-- A persisted token: the provider's `TokenResponse` fields plus the issuing
domain and the `stored_at` instant (an ISO string in the file; its
`Date.getTime()` value in milliseconds here).  `expires_in` is in seconds. -/
structure StoredToken where
  access_token : String
  token_type : String
  expires_in : Nat
  id_token : Option String
  domain : String
  stored_at : Nat
deriving DecidableEq, Repr

/-- `clearToken()`: unlink the token file (a no-op when absent). -/
def clearToken (_store : Option StoredToken) : Option StoredToken := none

/-- `loadToken()` at instant `now`, on a store holding `store` (`none` when
the file is absent or unreadable, which the `catch` turns into `null`).
Returns (result, store afterwards).  The expiry check is
`now - storedAt > expiresIn * 1000`, clearing and returning `null` on
expiry. -/
def loadToken (now : Nat) (store : Option StoredToken) :
    Option StoredToken × Option StoredToken :=
  match store with
  | none => (none, none)
  | some token =>
    if now - token.stored_at > token.expires_in * 1000 then
      (none, clearToken (some token))
    else
      (some token, some token)

/-! ## Base64 encodings

`oauth.ts` produces URL-safe base64 in two different ways:
`randomBytes(32).toString('base64url')` (Node's alphabet, unpadded) for the
PKCE verifier, and `btoa(...)` (standard alphabet, padded) followed by the
replacement chain `.replace(/\+/g,'-').replace(/\//g,'_').replace(/=/g,'')`
for the challenge.  Both are embedded below over byte lists. -/

/-- The standard base64 alphabet: `A–Z a–z 0–9 + /`. -/
def b64CharStd (n : Nat) : Char :=
  if n < 26 then Char.ofNat (65 + n)
  else if n < 52 then Char.ofNat (97 + (n - 26))
  else if n < 62 then Char.ofNat (48 + (n - 52))
  else if n = 62 then '+'
  else '/'

/-- The URL-safe base64 alphabet: `A–Z a–z 0–9 - _`. -/
def b64CharUrl (n : Nat) : Char :=
  if n < 26 then Char.ofNat (65 + n)
  else if n < 52 then Char.ofNat (97 + (n - 26))
  else if n < 62 then Char.ofNat (48 + (n - 52))
  else if n = 62 then '-'
  else '_'

/-- Base64-encode a byte list with the given alphabet, appending `=` padding
when `pad` is set. -/
def b64Encode (alpha : Nat → Char) (pad : Bool) : List Nat → List Char
  | [] => []
  | [b1] =>
    [alpha (b1 / 4), alpha (b1 % 4 * 16)] ++ (if pad then ['=', '='] else [])
  | [b1, b2] =>
    [alpha (b1 / 4), alpha (b1 % 4 * 16 + b2 / 16), alpha (b2 % 16 * 4)] ++
      (if pad then ['='] else [])
  | b1 :: b2 :: b3 :: rest =>
    alpha (b1 / 4) :: alpha (b1 % 4 * 16 + b2 / 16) ::
    alpha (b2 % 16 * 4 + b3 / 64) :: alpha (b3 % 64) ::
    b64Encode alpha pad rest

/-- One character under the JS replacement chain
`.replace(/\+/g,'-').replace(/\//g,'_')`. -/
def jsReplaceChar (c : Char) : Char :=
  if c = '+' then '-' else if c = '/' then '_' else c

/-- The JS replacement chain of `generateCodeChallenge`:
`.replace(/\+/g,'-').replace(/\//g,'_').replace(/=/g,'')`. -/
def jsB64UrlFix (cs : List Char) : List Char :=
  (cs.map jsReplaceChar).filter (fun c => c ≠ '=')

/-- `TextEncoder().encode(s)` for the ASCII strings this flow digests
(base64url-alphabet verifiers), where UTF-8 is the identity on code points. -/
def utf8Encode (s : String) : List Nat := s.data.map Char.toNat

/-! ## OAuth flow (`oauth.ts`) -/

/-- Options of `startOAuthFlow` (the `OAuthOptions` interface):
`clientSecret` is optional. -/
structure OAuthOptions where
  domain : String
  clientId : String
  clientSecret : Option String
  redirectUri : String
deriving DecidableEq, Repr

/-- `generateCodeChallenge(verifier)`: SHA-256 of the UTF-8 bytes of the
verifier, `btoa`-encoded (standard alphabet, padded) and then rewritten by
the replacement chain.  The digest primitive `crypto.subtle.digest` is
external; it is passed as an explicit function. -/
def generateCodeChallenge (sha256 : List Nat → List Nat) (verifier : String) :
    String :=
  String.mk (jsB64UrlFix (b64Encode b64CharStd true (sha256 (utf8Encode verifier))))

/-- `randomBytes(32).toString('base64url')`: the PKCE verifier produced from
the 32 random bytes `rand` (Node's `base64url` encoding is unpadded). -/
def pkceVerifier (rand : List Nat) : String :=
  String.mk (b64Encode b64CharUrl false rand)

/-- The `codeVerifier` variable of `startOAuthFlow`: `usePKCE` is
`!options.clientSecret`; the verifier is generated only in PKCE mode and
stays `''` otherwise. -/
def flowCodeVerifier (options : OAuthOptions) (rand : List Nat) : String :=
  if truthy options.clientSecret then "" else pkceVerifier rand

/-- The form parameters built by `exchangeCodeForToken`: the four base
parameters, then `client_secret` if the options carry one
(`if (options.clientSecret)`), else `code_verifier` if the verifier is
non-empty (`else if (codeVerifier)`). -/
def exchangeBodyParams (options : OAuthOptions) (code codeVerifier : String) :
    List (String × String) :=
  [("grant_type", "authorization_code"),
   ("code", code),
   ("client_id", options.clientId),
   ("redirect_uri", options.redirectUri)] ++
  (if truthy options.clientSecret then
    [("client_secret", options.clientSecret.getD "")]
  else if codeVerifier ≠ "" then
    [("code_verifier", codeVerifier)]
  else [])

/-- The externally visible steps of `startOAuthFlow`, in program order. -/
inductive FlowEvent where
  | discoverEndpoints
  | generateState
  | generatePkce
  | buildAuthUrl
  | openBrowser
  | bindListener
  | awaitCallback
  | exchangeCode
deriving DecidableEq, Repr, BEq

/-- The sequence of steps `startOAuthFlow` performs: discovery, state
generation, PKCE generation when no client secret is set, building the
authorization URL, `await open(authUrl)`, and only then `waitForCallback`,
whose first action is to bind the listener (`Bun.serve`), followed by the
code-for-token exchange. -/
def startOAuthFlowEvents (options : OAuthOptions) : List FlowEvent :=
  [.discoverEndpoints, .generateState] ++
  (if truthy options.clientSecret then [] else [.generatePkce]) ++
  [.buildAuthUrl, .openBrowser, .bindListener, .awaitCallback, .exchangeCode]

/-! ## Callback receiver (`waitForCallback`) -/

/-- A callback HTTP request as the handler sees it: the path and the
`code`, `state` and `error` query parameters (`searchParams.get` yields
`null` for an absent parameter, hence `Option`; a parameter present with an
empty value yields `""`). -/
structure CallbackRequest where
  pathname : String
  code : Option String
  state : Option String
  error : Option String
deriving DecidableEq, Repr

/-- Terminal outcome of one `waitForCallback` invocation: the resolved
authorization code, a rejection with its error message, or the 5-minute
timeout. -/
inductive CallbackOutcome where
  | succeeded (code : String)
  | rejected (message : String)
  | timedOut
deriving DecidableEq, Repr

/-- `setTimeout(..., 300000)`: the 5-minute deadline in milliseconds. -/
def CALLBACK_TIMEOUT_MS : Nat := 300000

/-- The `fetch(req)` handler of the `Bun.serve` listener: on the redirect
path, a truthy `error` rejects, a `state` different from the expected one
rejects, a truthy `code` resolves; everything else (including other paths)
is answered 404 and leaves the listener running.  Returns the terminal
outcome (if any) and the HTTP status of the response. -/
def handleCallbackRequest (callbackPath expectedState : String)
    (req : CallbackRequest) : Option CallbackOutcome × Nat :=
  if req.pathname = callbackPath then
    if truthy req.error then
      (some (.rejected ("Authorization error: " ++ req.error.getD "")), 400)
    else if req.state ≠ some expectedState then
      (some (.rejected "State mismatch - possible CSRF attack"), 400)
    else if truthy req.code then
      (some (.succeeded (req.code.getD "")), 200)
    else (none, 404)
  else (none, 404)

/-- Observable actions of the listener, in order: stopping the server
(`server.stop()`), settling the promise (`resolve`/`reject`), and answering
the browser with an HTTP status. -/
inductive ListenerEvent where
  | stopListener
  | deliver (outcome : CallbackOutcome)
  | respond (status : Nat)
deriving DecidableEq, Repr

/-- The event trace of `waitForCallback` given the inbound requests with
their arrival instants (in arrival order).  A request arriving before the
deadline is handled: a terminal request triggers `server.stop()`, then the
promise settlement, then the HTTP response; a non-terminal one is answered
and listening continues.  When no terminal request arrives in time, the
timeout fires: `server.stop()` then `reject`. -/
def waitForCallbackTrace (callbackPath expectedState : String) :
    List (Nat × CallbackRequest) → List ListenerEvent
  | [] => [.stopListener, .deliver .timedOut]
  | (t, req) :: rest =>
    if t < CALLBACK_TIMEOUT_MS then
      match handleCallbackRequest callbackPath expectedState req with
      | (some outcome, status) => [.stopListener, .deliver outcome, .respond status]
      | (none, status) =>
        .respond status :: waitForCallbackTrace callbackPath expectedState rest
    else [.stopListener, .deliver .timedOut]

/-- The outcome a trace delivers (the first settled promise value). -/
def deliveredOutcome : List ListenerEvent → Option CallbackOutcome
  | [] => none
  | .deliver outcome :: _ => some outcome
  | _ :: events => deliveredOutcome events

/-- `true` when every promise settlement in the trace happens after the
listener has been stopped. -/
def stopPrecedesDelivery (seenStop : Bool) : List ListenerEvent → Bool
  | [] => true
  | .stopListener :: events => stopPrecedesDelivery true events
  | .deliver _ :: events => seenStop && stopPrecedesDelivery seenStop events
  | .respond _ :: events => stopPrecedesDelivery seenStop events

/-! ## Helper lemmas: base64 -/

/-- Case analysis principle matching the chunked recursion of `b64Encode`. -/
theorem b64_rec {P : List Nat → Prop} (h0 : P []) (h1 : ∀ b, P [b])
    (h2 : ∀ b c, P [b, c])
    (h3 : ∀ b c d rest, P rest → P (b :: c :: d :: rest)) :
    ∀ l, P l := by
  have key : ∀ n l, List.length l ≤ n → P l := by
    intro n
    induction n with
    | zero =>
      intro l hl
      cases l with
      | nil => exact h0
      | cons b t => simp at hl
    | succ n ih =>
      intro l hl
      cases l with
      | nil => exact h0
      | cons b t =>
        cases t with
        | nil => exact h1 b
        | cons c u =>
          cases u with
          | nil => exact h2 b c
          | cons d rest =>
            refine h3 b c d rest (ih rest ?_)
            simp only [List.length_cons] at hl
            omega
  intro l
  exact key l.length l le_rfl

/-- For every 6-bit index the JS replacement chain turns the standard-base64
character into the URL-safe one, and the URL-safe character is never the
padding character. -/
theorem b64Char_facts : ∀ n < 64,
    jsReplaceChar (b64CharStd n) = b64CharUrl n ∧ b64CharUrl n ≠ '=' := by
  decide

/-- The padding character is untouched by the replacement chain. -/
theorem jsReplaceChar_pad : jsReplaceChar '=' = '=' := by decide

/-- The replacement chain plus `=`-stripping applied to padded standard
base64 yields exactly unpadded URL-safe base64 — the core of the
`generateCodeChallenge` encoding pipeline. -/
theorem jsB64UrlFix_b64Encode : ∀ l : List Nat, (∀ b ∈ l, b < 256) →
    jsB64UrlFix (b64Encode b64CharStd true l) = b64Encode b64CharUrl false l := by
  refine b64_rec ?_ ?_ ?_ ?_
  · intro _
    rfl
  · intro b hb
    have hb1 : b < 256 := hb b (by simp)
    have f1 := b64Char_facts (b / 4) (by omega)
    have f2 := b64Char_facts (b % 4 * 16) (by omega)
    simp [jsB64UrlFix, b64Encode, f1.1, f2.1, f1.2, f2.2, jsReplaceChar_pad]
  · intro b c hb
    have hb1 : b < 256 := hb b (by simp)
    have hb2 : c < 256 := hb c (by simp)
    have f1 := b64Char_facts (b / 4) (by omega)
    have f2 := b64Char_facts (b % 4 * 16 + c / 16) (by omega)
    have f3 := b64Char_facts (c % 16 * 4) (by omega)
    simp [jsB64UrlFix, b64Encode, f1.1, f2.1, f3.1, f1.2, f2.2, f3.2,
      jsReplaceChar_pad]
  · intro b c d rest ih hb
    have hb1 : b < 256 := hb b (by simp)
    have hb2 : c < 256 := hb c (by simp)
    have hb3 : d < 256 := hb d (by simp)
    have hrest : ∀ x ∈ rest, x < 256 := fun x hx => hb x (by simp [hx])
    have f1 := b64Char_facts (b / 4) (by omega)
    have f2 := b64Char_facts (b % 4 * 16 + c / 16) (by omega)
    have f3 := b64Char_facts (c % 16 * 4 + d / 64) (by omega)
    have f4 := b64Char_facts (d % 64) (by omega)
    have ih' := ih hrest
    simp only [jsB64UrlFix, ne_eq, decide_not] at ih'
    simp [jsB64UrlFix, b64Encode, f1.1, f2.1, f3.1, f4.1, f1.2, f2.2, f3.2,
      f4.2, ih']

/-- Length of unpadded base64 output. -/
theorem b64Encode_nopad_length (alpha : Nat → Char) : ∀ l : List Nat,
    (b64Encode alpha false l).length =
      l.length / 3 * 4 + (if l.length % 3 = 0 then 0 else l.length % 3 + 1) := by
  refine b64_rec ?_ ?_ ?_ ?_
  · rfl
  · intro b
    simp [b64Encode]
  · intro b c
    simp [b64Encode]
  · intro b c d rest ih
    simp only [b64Encode, List.length_cons, ih]
    have e1 : (rest.length + 1 + 1 + 1) % 3 = rest.length % 3 := by omega
    have e2 : (rest.length + 1 + 1 + 1) / 3 = rest.length / 3 + 1 := by omega
    rw [e1, e2]
    omega

/-- A verifier built from 32 random bytes is a 43-character string. -/
theorem pkceVerifier_length (rand : List Nat) (h : rand.length = 32) :
    (pkceVerifier rand).length = 43 := by
  have := b64Encode_nopad_length b64CharUrl rand
  rw [h] at this
  simp only [pkceVerifier, String.length]
  simpa using this

/-- A verifier built from 32 random bytes is non-empty. -/
theorem pkceVerifier_ne_empty (rand : List Nat) (h : rand.length = 32) :
    pkceVerifier rand ≠ "" := by
  intro he
  have hl := pkceVerifier_length rand h
  rw [he] at hl
  simp [String.length] at hl

/-! ## Helper lemmas: metadata resolver -/

/-- A successful cache lookup comes from a cache entry. -/
theorem lookupCache_mem {domain : String} {v : OpenIDConfiguration × Nat} :
    ∀ cache : Cache, lookupCache cache domain = some v → (domain, v) ∈ cache := by
  intro cache
  induction cache with
  | nil => intro h; simp [lookupCache] at h
  | cons e rest ih =>
    intro h
    obtain ⟨d, w⟩ := e
    by_cases hd : d = domain
    · subst hd
      simp [lookupCache] at h
      simp [h]
    · simp [lookupCache, hd] at h
      exact List.mem_cons_of_mem _ (ih h)

/-- `setCache` preserves well-formedness when the inserted configuration is
validated. -/
theorem cacheWF_setCache {cache : Cache} {domain : String}
    {config : OpenIDConfiguration} {ts : Nat} (hwf : cacheWF cache)
    (hok : requiredFieldsOk config = true) :
    cacheWF (setCache cache domain config ts) := by
  intro e he
  simp only [setCache, List.mem_cons, List.mem_filter] at he
  rcases he with he | ⟨he, -⟩
  · subst he
    exact hok
  · exact hwf e he

/-- The fallback configuration always satisfies the required-field
invariant. -/
theorem requiredFieldsOk_default (domain : String) :
    requiredFieldsOk (getDefaultClerkConfiguration domain) = true := by
  have hlen : "https://".length = 8 := rfl
  have hne : ∀ s : String, s.length ≠ 0 → truthy (some s) = true := by
    intro s hs
    simp only [truthy, Bool.not_eq_true', beq_eq_false_iff_ne, ne_eq]
    intro h
    rw [h] at hs
    exact hs rfl
  simp only [requiredFieldsOk, getDefaultClerkConfiguration, Bool.and_eq_true]
  refine ⟨⟨⟨?_, ?_⟩, ?_⟩, ?_⟩ <;>
    (apply hne; simp only [String.length_append, hlen]; omega)

/-- The fetch branch always records that the network was attempted. -/
theorem attemptDiscoveryFetch_fetched (now : Nat) (cache : Cache)
    (domain : String) (fetch : FetchResult) :
    (attemptDiscoveryFetch now cache domain fetch).fetched = true := by
  cases fetch with
  | transportError => rfl
  | response ok body =>
    rcases ok with _ | _ <;> rcases body with _ | config
    · rfl
    · rfl
    · rfl
    · simp only [attemptDiscoveryFetch, if_pos]
      split <;> rfl

/-- With a fresh cache entry, discovery serves it untouched without
fetching. -/
theorem discover_of_fresh {now : Nat} {cache : Cache} {domain : String}
    (fetch : FetchResult) {config : OpenIDConfiguration} {ts : Nat}
    (hl : lookupCache cache domain = some (config, ts))
    (ht : now - ts < CACHE_DURATION) :
    discoverOpenIDConfiguration now cache domain fetch = ⟨config, cache, false⟩ := by
  simp [discoverOpenIDConfiguration, hl, ht]

/-- With no fresh cache entry, discovery runs the fetch branch. -/
theorem discover_of_no_fresh {now : Nat} {cache : Cache} {domain : String}
    (fetch : FetchResult) (h : freshEntry now cache domain = none) :
    discoverOpenIDConfiguration now cache domain fetch =
      attemptDiscoveryFetch now cache domain fetch := by
  unfold freshEntry at h
  unfold discoverOpenIDConfiguration
  cases hl : lookupCache cache domain with
  | none => rfl
  | some v =>
    obtain ⟨config, ts⟩ := v
    rw [hl] at h
    simp only at h
    split at h
    · exact absurd h (by simp)
    · simp only
      split
      · omega
      · rfl

/-- A failed fetch leaves the cache unchanged and yields the fallback. -/
theorem attemptDiscoveryFetch_of_failed {now : Nat} {cache : Cache}
    {domain : String} {fetch : FetchResult} (h : fetchFailed fetch = true) :
    attemptDiscoveryFetch now cache domain fetch =
      ⟨getDefaultClerkConfiguration domain, cache, true⟩ := by
  cases fetch with
  | transportError => rfl
  | response ok body =>
    cases ok with
    | false => cases body <;> rfl
    | true =>
      cases body with
      | none => rfl
      | some config =>
        simp only [fetchFailed, if_pos, Bool.not_eq_true'] at h
        simp [attemptDiscoveryFetch, h]

/-- A non-empty present string is truthy. -/
theorem truthy_some {s : String} (h : s ≠ "") : truthy (some s) = true := by
  simp only [truthy, Bool.not_eq_true', beq_eq_false_iff_ne, ne_eq]
  exact h

/-- A fresh entry comes from a cache entry younger than the TTL. -/
theorem freshEntry_some {now : Nat} {cache : Cache} {domain : String}
    {config : OpenIDConfiguration}
    (h : freshEntry now cache domain = some config) :
    ∃ ts, lookupCache cache domain = some (config, ts) ∧
      now - ts < CACHE_DURATION := by
  unfold freshEntry at h
  cases hl : lookupCache cache domain with
  | none => rw [hl] at h; cases h
  | some v =>
    obtain ⟨cfg, ts⟩ := v
    rw [hl] at h
    simp only at h
    split at h
    · rename_i hcond
      injection h with h'
      subst h'
      exact ⟨ts, rfl, hcond⟩
    · cases h

/-- The fetch branch returns a validated configuration, preserves cache
well-formedness, and yields the fallback exactly on failed fetches. -/
theorem attemptDiscoveryFetch_valid (now : Nat) (cache : Cache)
    (domain : String) (fetch : FetchResult) (hwf : cacheWF cache) :
    requiredFieldsOk (attemptDiscoveryFetch now cache domain fetch).config = true ∧
    cacheWF (attemptDiscoveryFetch now cache domain fetch).cache ∧
    (fetchFailed fetch = true →
      (attemptDiscoveryFetch now cache domain fetch).config =
        getDefaultClerkConfiguration domain) := by
  cases fetch with
  | transportError => exact ⟨requiredFieldsOk_default domain, hwf, fun _ => rfl⟩
  | response ok body =>
    cases ok with
    | false =>
      cases body with
      | none => exact ⟨requiredFieldsOk_default domain, hwf, fun _ => rfl⟩
      | some config => exact ⟨requiredFieldsOk_default domain, hwf, fun _ => rfl⟩
    | true =>
      cases body with
      | none => exact ⟨requiredFieldsOk_default domain, hwf, fun _ => rfl⟩
      | some config =>
        by_cases hok : requiredFieldsOk config = true
        · refine ⟨?_, ?_, ?_⟩
          · simp [attemptDiscoveryFetch, hok]
          · simp only [attemptDiscoveryFetch, if_pos, hok, if_true]
            exact cacheWF_setCache hwf hok
          · intro hfail
            simp [fetchFailed, hok] at hfail
        · have hok' : requiredFieldsOk config = false := by
            simpa using hok
          refine ⟨?_, ?_, fun _ => ?_⟩
          · simp [attemptDiscoveryFetch, hok', requiredFieldsOk_default]
          · simp only [attemptDiscoveryFetch, hok']
            simpa using hwf
          · simp [attemptDiscoveryFetch, hok']

/-! ## Claims -/

/-- C3: for every domain, `discoverOpenIDConfiguration` never fails outward
(it is a total function: every failure inside the `try` lands in the
`catch`) and always returns a configuration in which the four required
fields (issuer, authorization_endpoint, token_endpoint, userinfo_endpoint)
are present and non-empty; on transport failure, non-2xx status,
non-parseable body, or a missing required field it returns the
deterministic fallback `getDefaultClerkConfiguration domain`.  The
hypothesis is the cache invariant (all cached entries passed validation
when inserted), which the call preserves. -/
theorem discovery_never_fails_and_validates (now : Nat) (cache : Cache)
    (domain : String) (fetch : FetchResult) (hwf : cacheWF cache) :
    requiredFieldsOk (discoverOpenIDConfiguration now cache domain fetch).config = true ∧
    cacheWF (discoverOpenIDConfiguration now cache domain fetch).cache ∧
    (freshEntry now cache domain = none → fetchFailed fetch = true →
      (discoverOpenIDConfiguration now cache domain fetch).config =
        getDefaultClerkConfiguration domain) := by
  cases hf : freshEntry now cache domain with
  | some config =>
    obtain ⟨ts, hl, ht⟩ := freshEntry_some hf
    rw [discover_of_fresh fetch hl ht]
    refine ⟨hwf _ (lookupCache_mem cache hl), hwf, ?_⟩
    intro h
    exact absurd h (by simp)
  | none =>
    rw [discover_of_no_fresh fetch hf]
    obtain ⟨h1, h2, h3⟩ := attemptDiscoveryFetch_valid now cache domain fetch hwf
    exact ⟨h1, h2, fun _ hfail => h3 hfail⟩

/-- Witness for C3 on a concrete input: empty cache, transport failure. -/
theorem discovery_never_fails_and_validates_witness :
    requiredFieldsOk (discoverOpenIDConfiguration 0 [] "acme.example"
      .transportError).config = true ∧
    cacheWF (discoverOpenIDConfiguration 0 [] "acme.example"
      .transportError).cache ∧
    (freshEntry 0 [] "acme.example" = none →
      fetchFailed .transportError = true →
      (discoverOpenIDConfiguration 0 [] "acme.example" .transportError).config =
        getDefaultClerkConfiguration "acme.example") :=
  discovery_never_fails_and_validates 0 [] "acme.example" .transportError
    (by simp [cacheWF])

/-- C9: a cached metadata entry younger than 24 hours is returned as-is,
with the cache untouched and no network fetch; when the entry is absent or
24 hours or older, the (single) network fetch is attempted. -/
theorem discovery_cache_ttl (now : Nat) (cache : Cache) (domain : String)
    (fetch : FetchResult) :
    (∀ config ts, lookupCache cache domain = some (config, ts) →
      now - ts < CACHE_DURATION →
      discoverOpenIDConfiguration now cache domain fetch =
        ⟨config, cache, false⟩) ∧
    (freshEntry now cache domain = none →
      (discoverOpenIDConfiguration now cache domain fetch).fetched = true) := by
  constructor
  · intro config ts hl ht
    exact discover_of_fresh fetch hl ht
  · intro hf
    rw [discover_of_no_fresh fetch hf]
    exact attemptDiscoveryFetch_fetched now cache domain fetch

/-- Witness for C9: a 100 ms old entry is served without fetching. -/
theorem discovery_cache_ttl_witness :
    discoverOpenIDConfiguration 200
      [("acme.example", getDefaultClerkConfiguration "acme.example", 100)]
      "acme.example" .transportError =
      ⟨getDefaultClerkConfiguration "acme.example",
       [("acme.example", getDefaultClerkConfiguration "acme.example", 100)],
       false⟩ :=
  (discovery_cache_ttl 200
    [("acme.example", getDefaultClerkConfiguration "acme.example", 100)]
    "acme.example" .transportError).1
    (getDefaultClerkConfiguration "acme.example") 100 (by simp [lookupCache])
    (by decide)

/-- C10: when a fetch fails and the fallback is synthesized, the cache is
left unchanged, the fallback value is returned but never inserted, and any
subsequent call that still finds no fresh entry re-attempts the network
fetch. -/
theorem discovery_fallback_frame (now : Nat) (cache : Cache)
    (domain : String) (fetch : FetchResult)
    (hfail : fetchFailed fetch = true)
    (hfresh : freshEntry now cache domain = none) :
    (discoverOpenIDConfiguration now cache domain fetch).cache = cache ∧
    (discoverOpenIDConfiguration now cache domain fetch).config =
      getDefaultClerkConfiguration domain ∧
    (∀ now2 fetch2, freshEntry now2 cache domain = none →
      (discoverOpenIDConfiguration now2
        (discoverOpenIDConfiguration now cache domain fetch).cache domain
        fetch2).fetched = true) := by
  have hstep : discoverOpenIDConfiguration now cache domain fetch =
      ⟨getDefaultClerkConfiguration domain, cache, true⟩ := by
    rw [discover_of_no_fresh fetch hfresh, attemptDiscoveryFetch_of_failed hfail]
  rw [hstep]
  refine ⟨rfl, rfl, ?_⟩
  intro now2 fetch2 hf2
  show (discoverOpenIDConfiguration now2 cache domain fetch2).fetched = true
  rw [discover_of_no_fresh fetch2 hf2]
  exact attemptDiscoveryFetch_fetched now2 cache domain fetch2

/-- Witness for C10: transport failure on an empty cache leaves it empty. -/
theorem discovery_fallback_frame_witness :
    (discoverOpenIDConfiguration 0 [] "acme.example" .transportError).cache = [] ∧
    (discoverOpenIDConfiguration 0 [] "acme.example" .transportError).config =
      getDefaultClerkConfiguration "acme.example" :=
  ⟨(discovery_fallback_frame 0 [] "acme.example" .transportError rfl rfl).1,
   (discovery_fallback_frame 0 [] "acme.example" .transportError rfl rfl).2.1⟩

/-- C2 counterexample: with `stored_at = 0` and `expires_in = 3600` s, at
`now = 3 600 000` ms we have `now = stored_at + expires_in·1000` exactly, so
the claim (`valid iff now < stored_at + lifetime`) demands clearing and
`none`; the code's check `now - storedAt > expiresIn·1000` is false at
equality, so `loadToken` returns the record and keeps the store intact. -/
theorem loadToken_at_expiry_counterexample :
    ¬ (3600000 < 0 + 3600 * 1000) ∧
    loadToken 3600000 (some ⟨"at", "bearer", 3600, none, "acme.example", 0⟩) =
      (some ⟨"at", "bearer", 3600, none, "acme.example", 0⟩,
       some ⟨"at", "bearer", 3600, none, "acme.example", 0⟩) := by
  exact ⟨by omega, rfl⟩

/-- C2 (amended): `loadToken` at `now` returns the stored record iff
`now ≤ stored_at + expires_in·1000` (the instant of expiry itself still
returns it); strictly after that instant it clears the persisted token and
returns `none`, leaving the store empty. -/
theorem loadToken_expiry (now : Nat) (token : StoredToken) :
    (now ≤ token.stored_at + token.expires_in * 1000 →
      loadToken now (some token) = (some token, some token)) ∧
    (token.stored_at + token.expires_in * 1000 < now →
      loadToken now (some token) = (none, none)) := by
  constructor
  · intro h
    simp only [loadToken]
    rw [if_neg (by omega)]
  · intro h
    simp only [loadToken, clearToken]
    rw [if_pos (by omega)]

/-- Witness for C2 (amended): a token one second old with a one-hour
lifetime is returned. -/
theorem loadToken_expiry_witness :
    loadToken 1000 (some ⟨"at", "bearer", 3600, none, "acme.example", 0⟩) =
      (some ⟨"at", "bearer", 3600, none, "acme.example", 0⟩,
       some ⟨"at", "bearer", 3600, none, "acme.example", 0⟩) :=
  (loadToken_expiry 1000 ⟨"at", "bearer", 3600, none, "acme.example", 0⟩).1
    (by decide)

/-- C1: evaluated on a concrete PKCE-mode login attempt, `startOAuthFlow`
performs the browser-opening step (`await open(authUrl)`) strictly before
the listener-binding step (`Bun.serve` inside `waitForCallback`), refuting
the claim that the listener is bound before the browser is instructed to
navigate. -/
theorem startOAuthFlow_opens_browser_before_binding :
    (startOAuthFlowEvents
      ⟨"acme.example", "client_123", none, "http://localhost:3000/callback"⟩).contains
        FlowEvent.openBrowser = true ∧
    (startOAuthFlowEvents
      ⟨"acme.example", "client_123", none, "http://localhost:3000/callback"⟩).contains
        FlowEvent.bindListener = true ∧
    (startOAuthFlowEvents
      ⟨"acme.example", "client_123", none, "http://localhost:3000/callback"⟩).indexOf
        FlowEvent.openBrowser <
      (startOAuthFlowEvents
        ⟨"acme.example", "client_123", none, "http://localhost:3000/callback"⟩).indexOf
        FlowEvent.bindListener := by
  decide

/-- C4: in every login attempt, the token-exchange form body contains
`grant_type=authorization_code`, `code`, `client_id` and `redirect_uri`;
with a (non-empty) client secret it additionally contains `client_secret`
and no `code_verifier`; without one it contains the (non-empty) PKCE
`code_verifier` and no `client_secret`.  `rand` is the 32-byte output of
`randomBytes(32)` used for the verifier in PKCE mode. -/
theorem exchange_body_mutual_exclusion (options : OAuthOptions)
    (code : String) (rand : List Nat) (hrand : rand.length = 32) :
    (("grant_type", "authorization_code") ∈
        exchangeBodyParams options code (flowCodeVerifier options rand) ∧
      ("code", code) ∈
        exchangeBodyParams options code (flowCodeVerifier options rand) ∧
      ("client_id", options.clientId) ∈
        exchangeBodyParams options code (flowCodeVerifier options rand) ∧
      ("redirect_uri", options.redirectUri) ∈
        exchangeBodyParams options code (flowCodeVerifier options rand)) ∧
    (∀ s, options.clientSecret = some s → s ≠ "" →
      ("client_secret", s) ∈
        exchangeBodyParams options code (flowCodeVerifier options rand) ∧
      ∀ x, ("code_verifier", x) ∉
        exchangeBodyParams options code (flowCodeVerifier options rand)) ∧
    (options.clientSecret = none →
      ("code_verifier", flowCodeVerifier options rand) ∈
        exchangeBodyParams options code (flowCodeVerifier options rand) ∧
      flowCodeVerifier options rand ≠ "" ∧
      ∀ x, ("client_secret", x) ∉
        exchangeBodyParams options code (flowCodeVerifier options rand)) := by
  by_cases hsec : truthy options.clientSecret = true
  · have hv : flowCodeVerifier options rand = "" := by
      simp [flowCodeVerifier, hsec]
    refine ⟨?_, ?_, ?_⟩
    · simp [exchangeBodyParams, hsec]
    · intro s hs hsne
      constructor
      · simp [exchangeBodyParams, hs, truthy_some hsne]
      · intro x
        simp [exchangeBodyParams, hsec]
    · intro hnone
      rw [hnone] at hsec
      simp [truthy] at hsec
  · have hsec' : truthy options.clientSecret = false := by
      simpa using hsec
    have hv : flowCodeVerifier options rand = pkceVerifier rand := by
      simp [flowCodeVerifier, hsec']
    have hvne : flowCodeVerifier options rand ≠ "" := by
      rw [hv]
      exact pkceVerifier_ne_empty rand hrand
    refine ⟨?_, ?_, ?_⟩
    · simp [exchangeBodyParams, hsec', hvne]
    · intro s hs hsne
      exfalso
      rw [hs, truthy_some hsne] at hsec'
      cases hsec'
    · intro hnone
      refine ⟨?_, hvne, ?_⟩
      · simp [exchangeBodyParams, hsec', hvne]
      · intro x
        simp [exchangeBodyParams, hsec', hvne]

/-- Witness for C4: PKCE mode (no secret) with the bytes `0..31`. -/
theorem exchange_body_mutual_exclusion_witness :
    ("grant_type", "authorization_code") ∈
      exchangeBodyParams
        ⟨"acme.example", "client_123", none, "http://localhost:3000/callback"⟩
        "authcode"
        (flowCodeVerifier
          ⟨"acme.example", "client_123", none, "http://localhost:3000/callback"⟩
          (List.range 32)) :=
  (exchange_body_mutual_exclusion
    ⟨"acme.example", "client_123", none, "http://localhost:3000/callback"⟩
    "authcode" (List.range 32) (by simp)).1.1

/-- C5: a callback on the redirect path with no `error` parameter and a
`state` absent or different from the issued one is rejected with the fixed
generic message "State mismatch - possible CSRF attack" — a constant
independent of the expected state, so it cannot leak it — and no
authorization code is ever delivered (the outcome is never `succeeded`). -/
theorem callback_state_mismatch_rejected (callbackPath expectedState : String)
    (req : CallbackRequest) (hpath : req.pathname = callbackPath)
    (herr : req.error = none) (hstate : req.state ≠ some expectedState) :
    handleCallbackRequest callbackPath expectedState req =
      (some (.rejected "State mismatch - possible CSRF attack"), 400) ∧
    ∀ c, (handleCallbackRequest callbackPath expectedState req).1 ≠
      some (.succeeded c) := by
  have h : handleCallbackRequest callbackPath expectedState req =
      (some (.rejected "State mismatch - possible CSRF attack"), 400) := by
    simp [handleCallbackRequest, hpath, herr, truthy, hstate]
  refine ⟨h, fun c => ?_⟩
  rw [h]
  simp

/-- Witness for C5: a one-character state difference is rejected. -/
theorem callback_state_mismatch_rejected_witness :
    handleCallbackRequest "/callback" "aaaa"
      ⟨"/callback", some "authcode", some "aaab", none⟩ =
      (some (.rejected "State mismatch - possible CSRF attack"), 400) :=
  (callback_state_mismatch_rejected "/callback" "aaaa"
    ⟨"/callback", some "authcode", some "aaab", none⟩ rfl rfl (by decide)).1

/-- C6 counterexample: a callback on the redirect path that carries the
`error` parameter with an empty value (`?error=&state=xyz&code=authcode`)
is not rejected: `if (error)` is falsy on the empty string, so the handler
falls through to the state check and resolves with the code. -/
theorem callback_empty_error_not_rejected :
    (CallbackRequest.mk "/callback" (some "authcode") (some "xyz")
      (some "")).error ≠ none ∧
    handleCallbackRequest "/callback" "xyz"
      ⟨"/callback", some "authcode", some "xyz", some ""⟩ =
      (some (.succeeded "authcode"), 200) := by
  decide

/-- C6 (amended): a callback on the redirect path carrying a non-empty
`error` parameter is rejected with the captured error string surfaced as
the failure detail, regardless of the `state` and `code` parameters (an
`error` parameter present with an empty value is treated as absent). -/
theorem callback_error_rejected (callbackPath expectedState : String)
    (req : CallbackRequest) (hpath : req.pathname = callbackPath)
    (e : String) (herr : req.error = some e) (hne : e ≠ "") :
    handleCallbackRequest callbackPath expectedState req =
      (some (.rejected ("Authorization error: " ++ e)), 400) := by
  simp [handleCallbackRequest, hpath, herr, truthy_some hne]

/-- Witness for C6 (amended): `error=access_denied` with a matching state
and a code present is still rejected with the error surfaced. -/
theorem callback_error_rejected_witness :
    handleCallbackRequest "/callback" "xyz"
      ⟨"/callback", some "authcode", some "xyz", some "access_denied"⟩ =
      (some (.rejected ("Authorization error: " ++ "access_denied")), 400) :=
  callback_error_rejected "/callback" "xyz"
    ⟨"/callback", some "authcode", some "xyz", some "access_denied"⟩ rfl
    "access_denied" rfl (by decide)

/-- C7: the PKCE verifier is exactly the unpadded URL-safe base64 encoding
of the 32 cryptographically random bytes (a 43-character string), and for
every verifier string the challenge equals
`b64url_nopad(sha256(utf8(verifier)))` — the digest is taken over the
verifier string as transmitted, so recomputing the challenge from a
captured verifier matches byte-for-byte.  The SHA-256 primitive
(`crypto.subtle.digest`) is external and passed abstractly; the hypothesis
states only that it outputs bytes. -/
theorem pkce_pair_spec (sha256 : List Nat → List Nat)
    (hsha : ∀ x : List Nat, ∀ b ∈ sha256 x, b < 256)
    (rand : List Nat) (hlen : rand.length = 32) :
    pkceVerifier rand = String.mk (b64Encode b64CharUrl false rand) ∧
    (pkceVerifier rand).length = 43 ∧
    ∀ v : String, generateCodeChallenge sha256 v =
      String.mk (b64Encode b64CharUrl false (sha256 (utf8Encode v))) := by
  refine ⟨rfl, pkceVerifier_length rand hlen, fun v => ?_⟩
  unfold generateCodeChallenge
  rw [jsB64UrlFix_b64Encode _ (hsha _)]

/-- Witness for C7: a constant digest function and the bytes `0..31`. -/
theorem pkce_pair_spec_witness :
    generateCodeChallenge (fun _ => List.replicate 32 0) "verifier_abc" =
      String.mk (b64Encode b64CharUrl false (List.replicate 32 0)) :=
  (pkce_pair_spec (fun _ => List.replicate 32 0)
    (fun x b hb => by
      have := List.eq_of_mem_replicate hb
      omega)
    (List.range 32) (by simp)).2.2 "verifier_abc"

/-- C8: if every request arriving before the 5-minute deadline is
non-terminal, the receiver delivers `timedOut`; and on every exit path —
success, rejection, and timeout alike — the listener is stopped
(`server.stop()`) before the outcome is delivered to the caller. -/
theorem waitForCallback_timeout_and_teardown (callbackPath expectedState : String)
    (reqs : List (Nat × CallbackRequest)) :
    ((∀ r ∈ reqs, r.1 < CALLBACK_TIMEOUT_MS →
        (handleCallbackRequest callbackPath expectedState r.2).1 = none) →
      deliveredOutcome (waitForCallbackTrace callbackPath expectedState reqs) =
        some .timedOut) ∧
    stopPrecedesDelivery false
      (waitForCallbackTrace callbackPath expectedState reqs) = true := by
  induction reqs with
  | nil => exact ⟨fun _ => rfl, rfl⟩
  | cons head rest ih =>
    obtain ⟨t, req⟩ := head
    constructor
    · intro hall
      simp only [waitForCallbackTrace]
      split
      · rename_i ht
        have hnone := hall (t, req) (by simp) ht
        cases hh : handleCallbackRequest callbackPath expectedState req with
        | mk fst snd =>
          rw [hh] at hnone
          subst hnone
          simp only [hh, deliveredOutcome]
          exact ih.1 (fun r hr htr => hall r (List.mem_cons_of_mem _ hr) htr)
      · rfl
    · simp only [waitForCallbackTrace]
      split
      · cases hh : handleCallbackRequest callbackPath expectedState req with
        | mk fst snd =>
          cases fst with
          | some outcome => simp [stopPrecedesDelivery]
          | none =>
            simp only [stopPrecedesDelivery]
            exact ih.2
      · rfl

/-- Witness for C8: with no requests at all, the receiver times out. -/
theorem waitForCallback_timeout_and_teardown_witness :
    deliveredOutcome (waitForCallbackTrace "/callback" "xyz" []) =
      some .timedOut :=
  (waitForCallback_timeout_and_teardown "/callback" "xyz" []).1 (by simp)

end CliOAuth
